import Mathlib

/-!
Verification model of the Sony IMX662 CMOS image-sensor driver
(drivers/media/i2c/imx662.c).

The driver is shallowly embedded: every register write is recorded in a
trace, the I2C transport is modelled as a fault function from the index of
the write to an optional error code, and the pure range/encoding arithmetic
is reproduced with explicit 32-bit modular arithmetic where the C source
computes in u32.  Settle delays (usleep_range/msleep) have no observable
effect on the register trace and are not modelled.
-/

namespace IMX662

/- Register addresses and field constants, from the #define block. -/

def IMX662_STANDBY : Nat := 0x3000
def IMX662_REGHOLD : Nat := 0x3001
def IMX662_XMSTA : Nat := 0x3002
def IMX662_INCK_SEL : Nat := 0x3014
def IMX662_LANE_RATE : Nat := 0x3015
def IMX662_LANE_RATE_1188 : Nat := 0x04
def IMX662_LANE_RATE_594 : Nat := 0x07
def IMX662_FLIP_WINMODEH : Nat := 0x3020
def IMX662_FLIP_WINMODEV : Nat := 0x3021
def IMX662_ADBIT : Nat := 0x3022
def IMX662_MDBIT : Nat := 0x3023
def IMX662_VMAX : Nat := 0x3028
def IMX662_VMAX_MAX : Nat := 0x3ffff
def IMX662_HMAX : Nat := 0x302c
def IMX662_HMAX_MAX : Nat := 0xffff
def IMX662_FR_FDG_SEL0 : Nat := 0x3030
def IMX662_FDG_SEL0_LCG : Nat := 0x00
def IMX662_FDG_SEL0_HCG : Nat := 0x01
def IMX662_CSI_LANE_MODE : Nat := 0x3040
def IMX662_EXPOSURE : Nat := 0x3050
def IMX662_GAIN : Nat := 0x3070
def IMX662_EXPOSURE_MIN : Nat := 1
def IMX662_EXPOSURE_STEP : Nat := 1
def IMX662_EXPOSURE_OFFSET : Nat := 4

/- u32 arithmetic: the C driver computes register values in unsigned
32-bit integers, so subtraction and addition are modulo 2^32. -/

def pow32 : Nat := 4294967296

def u32 (n : Nat) : Nat := n % pow32

def u32sub (a b : Nat) : Nat := (u32 a + (pow32 - u32 b)) % pow32

/-- One entry of a register-value table (struct imx662_regval). -/
structure Regval where
  reg : Nat
  val : Nat
deriving DecidableEq

def RV (r v : Nat) : Regval := ⟨r, v⟩

/-- A sensor mode (struct imx662_mode); the crop rectangle does not
participate in any claim and is omitted. -/
structure Mode where
  width : Nat
  height : Nat
  hmax : Nat
  vmax : Nat
  mode_data : List Regval
deriving DecidableEq

/-- The per-mode register blob imx662_1080p_common_settings. -/
def imx662_1080p_common_settings : List Regval :=
  [RV 0x3018 0x00, RV 0x3031 0x00, RV 0x3032 0x00]

/-- The global-settings register blob, transcribed entry for entry from
imx662_global_settings in the source (129 entries). -/
def imx662_global_settings : List Regval :=
  (RV 0x3002 0x00) ::
  (RV 0x301A 0x00) ::
  (RV 0x301B 0x00) ::
  (RV 0x301C 0x00) ::
  (RV 0x301E 0x01) ::
  (RV 0x303C 0x00) ::
  (RV 0x303D 0x00) ::
  (RV 0x303E 0x90) ::
  (RV 0x303F 0x07) ::
  (RV 0x3044 0x00) ::
  (RV 0x3045 0x00) ::
  (RV 0x3046 0x4C) ::
  (RV 0x3047 0x04) ::
  (RV 0x3060 0x16) ::
  (RV 0x3061 0x01) ::
  (RV 0x3062 0x00) ::
  (RV 0x3064 0xC4) ::
  (RV 0x3065 0x0C) ::
  (RV 0x3066 0x00) ::
  (RV 0x3069 0x00) ::
  (RV 0x3072 0x00) ::
  (RV 0x3073 0x00) ::
  (RV 0x3074 0x00) ::
  (RV 0x3075 0x00) ::
  (RV 0x3081 0x00) ::
  (RV 0x308C 0x00) ::
  (RV 0x308D 0x01) ::
  (RV 0x3094 0x00) ::
  (RV 0x3095 0x00) ::
  (RV 0x3096 0x00) ::
  (RV 0x3097 0x00) ::
  (RV 0x309C 0x00) ::
  (RV 0x309D 0x00) ::
  (RV 0x30A4 0xAA) ::
  (RV 0x30A6 0x0F) ::
  (RV 0x30CC 0x00) ::
  (RV 0x30CD 0x00) ::
  (RV 0x3400 0x01) ::
  (RV 0x3444 0xAC) ::
  (RV 0x3460 0x21) ::
  (RV 0x3492 0x08) ::
  (RV 0x3A50 0xFF) ::
  (RV 0x3A51 0x03) ::
  (RV 0x3A52 0x00) ::
  (RV 0x3B00 0x39) ::
  (RV 0x3B23 0x2D) ::
  (RV 0x3B45 0x04) ::
  (RV 0x3C0A 0x1F) ::
  (RV 0x3C0B 0x1E) ::
  (RV 0x3C38 0x21) ::
  (RV 0x3C40 0x06) ::
  (RV 0x3C44 0x00) ::
  (RV 0x3CB6 0xD8) ::
  (RV 0x3CC4 0xDA) ::
  (RV 0x3E24 0x79) ::
  (RV 0x3E2C 0x15) ::
  (RV 0x3EDC 0x2D) ::
  (RV 0x4498 0x05) ::
  (RV 0x449C 0x19) ::
  (RV 0x449D 0x00) ::
  (RV 0x449E 0x32) ::
  (RV 0x449F 0x01) ::
  (RV 0x44A0 0x92) ::
  (RV 0x44A2 0x91) ::
  (RV 0x44A4 0x8C) ::
  (RV 0x44A6 0x87) ::
  (RV 0x44A8 0x82) ::
  (RV 0x44AA 0x78) ::
  (RV 0x44AC 0x6E) ::
  (RV 0x44AE 0x69) ::
  (RV 0x44B0 0x92) ::
  (RV 0x44B2 0x91) ::
  (RV 0x44B4 0x8C) ::
  (RV 0x44B6 0x87) ::
  (RV 0x44B8 0x82) ::
  (RV 0x44BA 0x78) ::
  (RV 0x44BC 0x6E) ::
  (RV 0x44BE 0x69) ::
  (RV 0x44C1 0x01) ::
  (RV 0x44C2 0x7F) ::
  (RV 0x44C3 0x01) ::
  (RV 0x44C4 0x7A) ::
  (RV 0x44C5 0x01) ::
  (RV 0x44C6 0x7A) ::
  (RV 0x44C7 0x01) ::
  (RV 0x44C8 0x70) ::
  (RV 0x44C9 0x01) ::
  (RV 0x44CA 0x6B) ::
  (RV 0x44CB 0x01) ::
  (RV 0x44CC 0x6B) ::
  (RV 0x44CD 0x01) ::
  (RV 0x44CE 0x5C) ::
  (RV 0x44CF 0x01) ::
  (RV 0x44D0 0x7F) ::
  (RV 0x44D1 0x01) ::
  (RV 0x44D2 0x7F) ::
  (RV 0x44D3 0x01) ::
  (RV 0x44D4 0x7A) ::
  (RV 0x44D5 0x01) ::
  (RV 0x44D6 0x7A) ::
  (RV 0x44D7 0x01) ::
  (RV 0x44D8 0x70) ::
  (RV 0x44D9 0x01) ::
  (RV 0x44DA 0x6B) ::
  (RV 0x44DB 0x01) ::
  (RV 0x44DC 0x6B) ::
  (RV 0x44DD 0x01) ::
  (RV 0x44DE 0x5C) ::
  (RV 0x44DF 0x01) ::
  (RV 0x4534 0x1C) ::
  (RV 0x4535 0x03) ::
  (RV 0x4538 0x1C) ::
  (RV 0x4539 0x1C) ::
  (RV 0x453A 0x1C) ::
  (RV 0x453B 0x1C) ::
  (RV 0x453C 0x1C) ::
  (RV 0x453D 0x1C) ::
  (RV 0x453E 0x1C) ::
  (RV 0x453F 0x1C) ::
  (RV 0x4540 0x1C) ::
  (RV 0x4541 0x03) ::
  (RV 0x4542 0x03) ::
  (RV 0x4543 0x03) ::
  (RV 0x4544 0x03) ::
  (RV 0x4545 0x03) ::
  (RV 0x4546 0x03) ::
  (RV 0x4547 0x03) ::
  (RV 0x4548 0x03) ::
  (RV 0x4549 0x03) :: []

/-- The single catalog mode (1936x1100); hmax is written 0x3de * 2 in the
source. -/
def mode0 : Mode :=
  { width := 1936
    height := 1100
    hmax := 0x3de * 2
    vmax := 0x04e2
    mode_data := imx662_1080p_common_settings }

def imx662_modes : List Mode := [mode0]

/- Transport and write-trace model.  A transport maps the index of a write
(0-based, counting every attempted register write of a run) to none
(success) or some e (the write fails with error code e, a negative errno in
the C driver). -/

abbrev Tr := Nat → Option Int

/-- The fault-free transport. -/
def okTr : Tr := fun _ => none

/-- A transport whose n-th write fails with error e and all others
succeed. -/
def failAt (n : Nat) (e : Int) : Tr := fun m => if m = n then some e else none

/-- Write-trace state: the index of the next write and the ordered list of
all register writes attempted so far (a failed write is still attempted and
therefore recorded). -/
structure WST where
  idx : Nat
  trace : List Regval
deriving DecidableEq

def st0 : WST := ⟨0, []⟩

/-- imx662_write_reg: attempt one register write on the transport. -/
def wr (tr : Tr) (s : WST) (a v : Nat) : WST × Except Int Unit :=
  let s2 : WST := ⟨s.idx + 1, s.trace ++ [⟨a, v⟩]⟩
  match tr s.idx with
  | none => (s2, Except.ok ())
  | some e => (s2, Except.error e)

def isOk : Except Int Unit → Bool
  | Except.ok _ => true
  | Except.error _ => false

def errOf : Except Int Unit → Option Int
  | Except.ok _ => none
  | Except.error e => some e

/-- imx662_set_register_array: apply a register blob in order, one write
per entry, aborting at the first failed write with that write's error. -/
def imx662_set_register_array (tr : Tr) : WST → List Regval → WST × Except Int Unit
  | s, [] => (s, Except.ok ())
  | s, r :: rest =>
    match wr tr s r.reg r.val with
    | (s2, Except.ok _) => imx662_set_register_array tr s2 rest
    | (s2, Except.error e) => (s2, Except.error e)

/-- Byte i of a u32 value, least significant byte first:
(u8)(value >> (i * 8)). -/
def byteAt (value i : Nat) : Nat := (value >>> (8 * i)) % 256

/-- The value-byte loop of imx662_write_buffered_reg: writes byte i at
address a + i for i = 0 .. nr_regs - 1, aborting at the first failure. -/
def writeValueBytes (tr : Tr) (a v : Nat) : WST → Nat → Nat → WST × Except Int Unit
  | s, _, 0 => (s, Except.ok ())
  | s, i, k + 1 =>
    match wr tr s (a + i) (byteAt v i) with
    | (s2, Except.ok _) => writeValueBytes tr a v s2 (i + 1) k
    | (s2, Except.error e) => (s2, Except.error e)

/-- imx662_write_buffered_reg: write REGHOLD = 1, then the value bytes
LSB-first at consecutive addresses, then REGHOLD = 0.  The source returns
immediately on ANY failure, including a failed intermediate value write, so
the release write happens only when the hold write and every value write
succeeded. -/
def imx662_write_buffered_reg (tr : Tr) (s : WST) (address_low nr_regs value : Nat) :
    WST × Except Int Unit :=
  match wr tr s IMX662_REGHOLD 0x01 with
  | (s1, Except.error e) => (s1, Except.error e)
  | (s1, Except.ok _) =>
    match writeValueBytes tr address_low value s1 0 nr_regs with
    | (s2, Except.error e) => (s2, Except.error e)
    | (s2, Except.ok _) => wr tr s2 IMX662_REGHOLD 0x00

/-- The expected byte writes of a held group write, starting at byte index
i, k bytes long. -/
def heldBytesFrom (a v i : Nat) : Nat → List Regval
  | 0 => []
  | k + 1 => ⟨a + i, byteAt v i⟩ :: heldBytesFrom a v (i + 1) k

/-- The full expected write list of a successful held group write. -/
def heldWrites (a v n : Nat) : List Regval :=
  ⟨IMX662_REGHOLD, 0x01⟩ :: (heldBytesFrom a v 0 n ++ [⟨IMX662_REGHOLD, 0x00⟩])

/-- The FR_FDG_SEL0 value chosen by imx662_set_gain: the source conditional
value < 0x22 selects IMX662_FDG_SEL0_LCG in BOTH branches. -/
def fdg_sel0_for_gain (value : Nat) : Nat :=
  if value < 0x22 then IMX662_FDG_SEL0_LCG else IMX662_FDG_SEL0_LCG

/-- imx662_set_gain: buffered 2-byte gain write, then FR_FDG_SEL0. -/
def imx662_set_gain (tr : Tr) (s : WST) (value : Nat) : WST × Except Int Unit :=
  match imx662_write_buffered_reg tr s IMX662_GAIN 2 value with
  | (s1, Except.error e) => (s1, Except.error e)
  | (s1, Except.ok _) => wr tr s1 IMX662_FR_FDG_SEL0 (fdg_sel0_for_gain value)

/-- The exposure register encoding of imx662_set_exposure:
(current_mode->height + vblank->val) - value - 1 in u32 arithmetic. -/
def encodeExposure (height vblank value : Nat) : Nat :=
  u32sub (u32sub (u32 (height + vblank)) value) 1

/-- imx662_set_exposure: buffered 3-byte write of the encoded exposure. -/
def imx662_set_exposure (tr : Tr) (s : WST) (height vblank value : Nat) :
    WST × Except Int Unit :=
  imx662_write_buffered_reg tr s IMX662_EXPOSURE 3 (encodeExposure height vblank value)

/-- The HMAX encoding of imx662_set_hmax: (val + width) >> 1 in u32. -/
def encodeHmax (width value : Nat) : Nat := u32 (value + width) >>> 1

/-- imx662_set_hmax: buffered 2-byte write of the encoded hmax. -/
def imx662_set_hmax (tr : Tr) (s : WST) (width value : Nat) : WST × Except Int Unit :=
  imx662_write_buffered_reg tr s IMX662_HMAX 2 (encodeHmax width value)

/-- The VMAX encoding of imx662_set_vmax: val + height in u32. -/
def encodeVmax (height value : Nat) : Nat := u32 (value + height)

/-- Clamping of a control value into a freshly published range, as
performed by __v4l2_ctrl_modify_range on the current control value. -/
def clampCtrl (lo hi v : Nat) : Nat := max lo (min hi v)

/-- imx662_set_vmax: buffered 3-byte VMAX write, then (regardless of that
outcome) republish the exposure range to [1, vmax - 4] and rewrite the
exposure via imx662_set_exposure with the clamped current exposure value.
The source checks the VMAX-write result only to log, calls
imx662_set_exposure WITHOUT inspecting its result, and returns the
VMAX-write result, so a nested exposure-write failure is discarded. -/
def imx662_set_vmax (tr : Tr) (s : WST) (height vblankVal exposureVal : Nat) :
    WST × Except Int Unit :=
  let vmax := encodeVmax height vblankVal
  let r1 := imx662_write_buffered_reg tr s IMX662_VMAX 3 vmax
  let expv := clampCtrl IMX662_EXPOSURE_MIN (vmax - IMX662_EXPOSURE_OFFSET) exposureVal
  let r2 := imx662_set_exposure tr r1.1 height vblankVal expv
  (r2.1, r1.2)

/-- imx662_stop_streaming: write STANDBY = 1; on failure return that error
immediately (the XMSTA stop-bit write is NOT attempted); otherwise (after
the 30 ms settle delay) write XMSTA = 1 and return that result. -/
def imx662_stop_streaming (tr : Tr) (s : WST) : WST × Except Int Unit :=
  match wr tr s IMX662_STANDBY 0x01 with
  | (s1, Except.error e) => (s1, Except.error e)
  | (s1, Except.ok _) => wr tr s1 IMX662_XMSTA 0x01

/-- Media-bus pixel-format codes used by the driver.  Their numeric kernel
values play no role in the logic, so they are modelled as an enumeration;
unknown stands for any code outside the two per-variant format lists. -/
inductive MbusCode
  | SRGGB10
  | SRGGB12
  | Y10
  | Y12
  | unknown
deriving DecidableEq

/-- One entry of a pixel-format list (struct imx662_pixfmt). -/
structure PixFmt where
  code : MbusCode
  bpp : Nat
deriving DecidableEq

def imx662_colour_formats : List PixFmt :=
  [⟨MbusCode.SRGGB10, 10⟩, ⟨MbusCode.SRGGB12, 12⟩]

def imx662_mono_formats : List PixFmt :=
  [⟨MbusCode.Y10, 10⟩, ⟨MbusCode.Y12, 12⟩]

/-- The ADBIT/MDBIT code of imx662_write_current_format: 10-bit formats
map to 0x00, 12-bit formats to 0x01, anything else is -EINVAL. -/
def ad_md_bit : MbusCode → Option Nat
  | MbusCode.SRGGB10 => some 0x00
  | MbusCode.Y10 => some 0x00
  | MbusCode.SRGGB12 => some 0x01
  | MbusCode.Y12 => some 0x01
  | MbusCode.unknown => none

def errEINVAL : Int := -22

/-- imx662_write_current_format: write ADBIT then MDBIT with the bit-depth
code of the current format, aborting on the first failure. -/
def imx662_write_current_format (tr : Tr) (s : WST) (code : MbusCode) :
    WST × Except Int Unit :=
  match ad_md_bit code with
  | none => (s, Except.error errEINVAL)
  | some b =>
    match wr tr s IMX662_ADBIT b with
    | (s1, Except.error e) => (s1, Except.error e)
    | (s1, Except.ok _) =>
      match wr tr s1 IMX662_MDBIT b with
      | (s2, Except.error e) => (s2, Except.error e)
      | (s2, Except.ok _) => (s2, Except.ok ())

/-- The six live control values of the driver (struct imx662 control
pointers), in the order they are registered in imx662_probe. -/
structure Ctrls where
  gain : Nat
  exposure : Nat
  hblank : Nat
  vblank : Nat
  hflip : Nat
  vflip : Nat
deriving DecidableEq

/-- Modelled from the spec: v4l2_ctrl_handler_setup is host-framework code
outside this repository; per the spec it re-applies every current control
value in a single deterministic pass, aborting at the first error.  The
controls are applied in their registration order from imx662_probe (gain,
hblank, vblank, exposure, hflip, vflip; the read-only link-frequency and
pixel-rate controls are skipped) and each dispatches through the
imx662_set_ctrl cases of the source.  The exposure control value applied
after the vblank control is the value clamped into the range republished
by imx662_set_vmax. -/
def v4l2_ctrl_handler_setup (tr : Tr) (s : WST) (m : Mode) (c : Ctrls) :
    WST × Except Int Unit :=
  match imx662_set_gain tr s c.gain with
  | (s1, Except.error e) => (s1, Except.error e)
  | (s1, Except.ok _) =>
    match imx662_set_hmax tr s1 m.width c.hblank with
    | (s2, Except.error e) => (s2, Except.error e)
    | (s2, Except.ok _) =>
      match imx662_set_vmax tr s2 m.height c.vblank c.exposure with
      | (s3, Except.error e) => (s3, Except.error e)
      | (s3, Except.ok _) =>
        match imx662_set_exposure tr s3 m.height c.vblank
            (clampCtrl IMX662_EXPOSURE_MIN
              (encodeVmax m.height c.vblank - IMX662_EXPOSURE_OFFSET) c.exposure) with
        | (s4, Except.error e) => (s4, Except.error e)
        | (s4, Except.ok _) =>
          match wr tr s4 IMX662_FLIP_WINMODEH c.hflip with
          | (s5, Except.error e) => (s5, Except.error e)
          | (s5, Except.ok _) => wr tr s5 IMX662_FLIP_WINMODEV c.vflip

/-- The construction-time configuration relevant to streaming: clock
select code, lane count, current format code, current mode and current
control values. -/
structure Cfg where
  inck_sel : Nat
  nlanes : Nat
  code : MbusCode
  mode : Mode
  ctrls : Ctrls
deriving DecidableEq

/-- imx662_start_streaming: global blob, INCK_SEL, bit-depth pair, mode
blob, CSI_LANE_MODE, LANE_RATE, control re-application, STANDBY = 0,
(30 ms settle), XMSTA = 0; every step checks its result and aborts the
remaining steps with that error. -/
def imx662_start_streaming (tr : Tr) (s : WST) (cfg : Cfg) : WST × Except Int Unit :=
  match imx662_set_register_array tr s imx662_global_settings with
  | (s1, Except.error e) => (s1, Except.error e)
  | (s1, Except.ok _) =>
    match wr tr s1 IMX662_INCK_SEL cfg.inck_sel with
    | (s2, Except.error e) => (s2, Except.error e)
    | (s2, Except.ok _) =>
      match imx662_write_current_format tr s2 cfg.code with
      | (s3, Except.error e) => (s3, Except.error e)
      | (s3, Except.ok _) =>
        match imx662_set_register_array tr s3 cfg.mode.mode_data with
        | (s4, Except.error e) => (s4, Except.error e)
        | (s4, Except.ok _) =>
          match wr tr s4 IMX662_CSI_LANE_MODE (if cfg.nlanes == 2 then 0x01 else 0x03) with
          | (s5, Except.error e) => (s5, Except.error e)
          | (s5, Except.ok _) =>
            match wr tr s5 IMX662_LANE_RATE
                (if cfg.nlanes == 2 then IMX662_LANE_RATE_1188 else IMX662_LANE_RATE_594) with
            | (s6, Except.error e) => (s6, Except.error e)
            | (s6, Except.ok _) =>
              match v4l2_ctrl_handler_setup tr s6 cfg.mode cfg.ctrls with
              | (s7, Except.error e) => (s7, Except.error e)
              | (s7, Except.ok _) =>
                match wr tr s7 IMX662_STANDBY 0x00 with
                | (s8, Except.error e) => (s8, Except.error e)
                | (s8, Except.ok _) => wr tr s8 IMX662_XMSTA 0x00

/-- The enable branch of imx662_set_stream: on start failure the error is
returned and the flip controls are not grabbed (the driver is left not
streaming); on success the flips are grabbed (streaming).  The Bool is the
streaming state after the call. -/
def imx662_set_stream_enable (tr : Tr) (s : WST) (cfg : Cfg) :
    WST × Except Int Unit × Bool :=
  match imx662_start_streaming tr s cfg with
  | (s1, Except.error e) => (s1, Except.error e, false)
  | (s1, Except.ok _) => (s1, Except.ok (), true)

/-- The disable branch of imx662_set_stream: imx662_stop_streaming is
called with its result DISCARDED, the flips are ungrabbed, and ret (still
initialised to 0) is returned. -/
def imx662_set_stream_disable (tr : Tr) (s : WST) : WST × Except Int Unit × Bool :=
  let r := imx662_stop_streaming tr s
  (r.1, Except.ok (), false)

/-- A published control range: minimum, maximum, default (step is 1 for
every range the driver publishes). -/
structure CtrlRange where
  minv : Nat
  maxv : Nat
  defv : Nat
deriving DecidableEq

/-- The hblank range published by imx662_set_fmt and imx662_probe:
[hmax - width, HMAX_MAX - width], default hmax - width. -/
def hblankRange (m : Mode) : CtrlRange :=
  ⟨m.hmax - m.width, IMX662_HMAX_MAX - m.width, m.hmax - m.width⟩

/-- The vblank range published by imx662_set_fmt and imx662_probe:
[vmax - height, VMAX_MAX - height], default vmax - height. -/
def vblankRange (m : Mode) : CtrlRange :=
  ⟨m.vmax - m.height, IMX662_VMAX_MAX - m.height, m.vmax - m.height⟩

/-- The exposure range published by imx662_set_fmt and imx662_probe:
[IMX662_EXPOSURE_MIN, mode->vmax - 2], default mode->vmax - 2. -/
def exposureRangeOnFmt (m : Mode) : CtrlRange :=
  ⟨IMX662_EXPOSURE_MIN, m.vmax - 2, m.vmax - 2⟩

/-- The exposure range republished by imx662_set_vmax after a vblank
change: [IMX662_EXPOSURE_MIN, vmax - IMX662_EXPOSURE_OFFSET] where
vmax = vblank + height, default equal to the maximum. -/
def exposureRangeOnVblank (m : Mode) (vb : Nat) : CtrlRange :=
  ⟨IMX662_EXPOSURE_MIN, encodeVmax m.height vb - IMX662_EXPOSURE_OFFSET,
   encodeVmax m.height vb - IMX662_EXPOSURE_OFFSET⟩

/-- Modelled from the spec: v4l2_find_nearest_size is host-framework code
outside this repository; per the spec it selects the catalog entry
minimising a distance metric over (width, height) with ties broken by
catalog order, and with a single-mode catalog it always returns that mode.
The metric used here is the L1 distance. -/
def v4l2_find_nearest_size (ms : List Mode) (w h : Nat) (fallback : Mode) : Mode :=
  match ms with
  | [] => fallback
  | m :: rest =>
    rest.foldl (fun best cand =>
      if (cand.width - w) + (w - cand.width) + (cand.height - h) + (h - cand.height) <
         (best.width - w) + (w - best.width) + (best.height - h) + (h - best.height)
      then cand else best) m

/-- The driver state touched by imx662_set_fmt on the ACTIVE path:
current mode, current format code and bit depth, the published control
ranges, and whether the device is streaming (flips grabbed). -/
structure DrvState where
  current_mode : Mode
  code : MbusCode
  bpp : Nat
  streaming : Bool
  hblankR : CtrlRange
  vblankR : CtrlRange
  exposureR : CtrlRange
deriving DecidableEq

/-- imx662_set_fmt (ACTIVE path): select the nearest mode, look the
requested code up in the per-variant format list (falling back to index 0
when absent), store mode/format/bpp, republish the pixel-rate, hblank,
vblank and exposure ranges, and return 0.  The source contains NO check of
the streaming state: the update happens unconditionally.  (The register
writes that the framework may issue while republishing controls are not
part of this function.) -/
def imx662_set_fmt (st : DrvState) (formats : List PixFmt) (w h : Nat)
    (reqCode : MbusCode) : DrvState × Except Int Unit :=
  let m := v4l2_find_nearest_size imx662_modes w h st.current_mode
  let i := formats.findIdx (fun f => decide (f.code = reqCode))
  let i := if i < formats.length then i else 0
  let f := formats.getD i ⟨MbusCode.SRGGB10, 10⟩
  ({ st with
      current_mode := m
      code := f.code
      bpp := f.bpp
      hblankR := hblankRange m
      vblankR := vblankRange m
      exposureR := exposureRangeOnFmt m }, Except.ok ())

/-- The register-write order the start sequence is specified to produce:
global blob, clock select, bit-depth pair, mode blob, lane mode and lane
rate, the six control values (each multi-byte value as a held hold /
bytes / release group), standby clear, master-start clear.  The exposure
group appears twice because the vblank control re-application rewrites the
exposure from inside imx662_set_vmax and the exposure control is then
re-applied on its own. -/
def expectedStartTrace (cfg : Cfg) : List Regval :=
  let adm := (ad_md_bit cfg.code).getD 0
  let expv := encodeExposure cfg.mode.height cfg.ctrls.vblank
      (clampCtrl IMX662_EXPOSURE_MIN
        (encodeVmax cfg.mode.height cfg.ctrls.vblank - IMX662_EXPOSURE_OFFSET)
        cfg.ctrls.exposure)
  imx662_global_settings
  ++ [⟨IMX662_INCK_SEL, cfg.inck_sel⟩]
  ++ [⟨IMX662_ADBIT, adm⟩, ⟨IMX662_MDBIT, adm⟩]
  ++ cfg.mode.mode_data
  ++ [⟨IMX662_CSI_LANE_MODE, if cfg.nlanes == 2 then 0x01 else 0x03⟩,
      ⟨IMX662_LANE_RATE, if cfg.nlanes == 2 then IMX662_LANE_RATE_1188 else IMX662_LANE_RATE_594⟩]
  ++ heldWrites IMX662_GAIN cfg.ctrls.gain 2 ++ [⟨IMX662_FR_FDG_SEL0, IMX662_FDG_SEL0_LCG⟩]
  ++ heldWrites IMX662_HMAX (encodeHmax cfg.mode.width cfg.ctrls.hblank) 2
  ++ heldWrites IMX662_VMAX (encodeVmax cfg.mode.height cfg.ctrls.vblank) 3
  ++ heldWrites IMX662_EXPOSURE expv 3
  ++ heldWrites IMX662_EXPOSURE expv 3
  ++ [⟨IMX662_FLIP_WINMODEH, cfg.ctrls.hflip⟩, ⟨IMX662_FLIP_WINMODEV, cfg.ctrls.vflip⟩]
  ++ [⟨IMX662_STANDBY, 0x00⟩]
  ++ [⟨IMX662_XMSTA, 0x00⟩]

/-- A concrete configuration for scenario runs: 74.25 MHz clock code, two
lanes, 12-bit colour format, the catalog mode, and the default control
values of imx662_probe except for a user exposure of 1000 lines. -/
def cfg0 : Cfg := ⟨0x00, 2, MbusCode.SRGGB12, mode0, ⟨10, 1000, 44, 150, 0, 0⟩⟩

/- Helper lemmas about the transport machinery. -/

theorem wr_none (tr : Tr) (s : WST) (a v : Nat) (h : tr s.idx = none) :
    wr tr s a v = (⟨s.idx + 1, s.trace ++ [⟨a, v⟩]⟩, Except.ok ()) := by
  simp [wr, h]

theorem wr_some (tr : Tr) (s : WST) (a v : Nat) (e : Int) (h : tr s.idx = some e) :
    wr tr s a v = (⟨s.idx + 1, s.trace ++ [⟨a, v⟩]⟩, Except.error e) := by
  simp [wr, h]

theorem wvb_ok (tr : Tr) (a v : Nat) :
    ∀ (k i : Nat) (s : WST), (∀ j, j < k → tr (s.idx + j) = none) →
      writeValueBytes tr a v s i k =
        (⟨s.idx + k, s.trace ++ heldBytesFrom a v i k⟩, Except.ok ()) := by
  intro k
  induction k with
  | zero =>
    intro i s _
    simp [writeValueBytes, heldBytesFrom]
  | succ k ih =>
    intro i s h
    have h0 : tr s.idx = none := by simpa using h 0 (Nat.succ_pos k)
    have hrec := ih (i + 1) ⟨s.idx + 1, s.trace ++ [⟨a + i, byteAt v i⟩]⟩ (by
      intro j hj
      have hmem := h (j + 1) (by omega)
      have heq : s.idx + (j + 1) = s.idx + 1 + j := by omega
      rw [heq] at hmem
      exact hmem)
    simp only [writeValueBytes, wr_none tr s (a + i) (byteAt v i) h0]
    rw [hrec]
    simp only [Prod.mk.injEq, WST.mk.injEq, heldBytesFrom]
    refine ⟨⟨by omega, by simp⟩, trivial⟩

theorem wvb_fail (tr : Tr) (a v : Nat) (e : Int) :
    ∀ (k i : Nat) (s : WST) (j : Nat), j < k →
      (∀ l, l < j → tr (s.idx + l) = none) → tr (s.idx + j) = some e →
      writeValueBytes tr a v s i k =
        (⟨s.idx + j + 1, s.trace ++ heldBytesFrom a v i (j + 1)⟩, Except.error e) := by
  intro k
  induction k with
  | zero => intro i s j hj _ _; omega
  | succ k ih =>
    intro i s j hj hpre hfail
    cases j with
    | zero =>
      have h0 : tr s.idx = some e := by simpa using hfail
      simp only [writeValueBytes, wr_some tr s (a + i) (byteAt v i) e h0]
      simp [heldBytesFrom]
    | succ j =>
      have h0 : tr s.idx = none := by simpa using hpre 0 (Nat.succ_pos j)
      have hrec := ih (i + 1) ⟨s.idx + 1, s.trace ++ [⟨a + i, byteAt v i⟩]⟩ j (by omega)
        (by
          intro l hl
          have hmem := hpre (l + 1) (by omega)
          have heq : s.idx + (l + 1) = s.idx + 1 + l := by omega
          rw [heq] at hmem
          exact hmem)
        (by
          have heq : s.idx + (j + 1) = s.idx + 1 + j := by omega
          rw [heq] at hfail
          exact hfail)
      simp only [writeValueBytes, wr_none tr s (a + i) (byteAt v i) h0]
      rw [hrec]
      simp only [Prod.mk.injEq, WST.mk.injEq, heldBytesFrom]
      refine ⟨⟨by omega, by simp⟩, trivial⟩

theorem wbr_hold_fail (tr : Tr) (s : WST) (a n v : Nat) (e : Int)
    (h : tr s.idx = some e) :
    imx662_write_buffered_reg tr s a n v =
      (⟨s.idx + 1, s.trace ++ [⟨IMX662_REGHOLD, 0x01⟩]⟩, Except.error e) := by
  simp only [imx662_write_buffered_reg, wr_some tr s IMX662_REGHOLD 0x01 e h]

theorem wbr_ok (tr : Tr) (s : WST) (a n v : Nat)
    (h : ∀ j, j < n + 2 → tr (s.idx + j) = none) :
    imx662_write_buffered_reg tr s a n v =
      (⟨s.idx + n + 2, s.trace ++ heldWrites a v n⟩, Except.ok ()) := by
  have h0 : tr s.idx = none := by simpa using h 0 (by omega)
  have hbytes := wvb_ok tr a v n 0 ⟨s.idx + 1, s.trace ++ [⟨IMX662_REGHOLD, 0x01⟩]⟩ (by
    intro j hj
    have hmem := h (j + 1) (by omega)
    have heq : s.idx + (j + 1) = s.idx + 1 + j := by omega
    rw [heq] at hmem
    exact hmem)
  have hrel : tr (s.idx + 1 + n) = none := by
    have hmem := h (n + 1) (by omega)
    have heq : s.idx + (n + 1) = s.idx + 1 + n := by omega
    rw [heq] at hmem
    exact hmem
  simp only [imx662_write_buffered_reg, wr_none tr s IMX662_REGHOLD 0x01 h0, hbytes,
    wr_none tr ⟨s.idx + 1 + n, (s.trace ++ [⟨IMX662_REGHOLD, 0x01⟩]) ++ heldBytesFrom a v 0 n⟩
      IMX662_REGHOLD 0x00 hrel]
  simp only [Prod.mk.injEq, WST.mk.injEq, heldWrites]
  refine ⟨⟨by omega, by simp⟩, trivial⟩

theorem wbr_byte_fail (tr : Tr) (s : WST) (a n v : Nat) (j : Nat) (e : Int)
    (hj : j < n) (h0 : tr s.idx = none)
    (hpre : ∀ l, l < j → tr (s.idx + 1 + l) = none)
    (hfail : tr (s.idx + 1 + j) = some e) :
    imx662_write_buffered_reg tr s a n v =
      (⟨s.idx + j + 2, s.trace ++ ⟨IMX662_REGHOLD, 0x01⟩ :: heldBytesFrom a v 0 (j + 1)⟩,
        Except.error e) := by
  have hbytes := wvb_fail tr a v e n 0 ⟨s.idx + 1, s.trace ++ [⟨IMX662_REGHOLD, 0x01⟩]⟩ j hj
    hpre hfail
  simp only [imx662_write_buffered_reg, wr_none tr s IMX662_REGHOLD 0x01 h0, hbytes]
  simp only [Prod.mk.injEq, WST.mk.injEq]
  refine ⟨⟨by omega, by simp⟩, trivial⟩

theorem u32_eq_of_lt {a : Nat} (h : a < pow32) : u32 a = a := Nat.mod_eq_of_lt h

theorem u32sub_eq {a b : Nat} (ha : a < pow32) (hb : b ≤ a) : u32sub a b = a - b := by
  unfold u32sub
  rw [u32_eq_of_lt ha, u32_eq_of_lt (lt_of_le_of_lt hb ha)]
  have hble : b ≤ pow32 := le_of_lt (lt_of_le_of_lt hb ha)
  have h1 : a + (pow32 - b) = (a - b) + pow32 := by omega
  rw [h1, Nat.add_mod_right]
  exact Nat.mod_eq_of_lt (by omega)

theorem encodeExposure_eq (h vb e : Nat) (hlt : h + vb < pow32) (he1 : 1 ≤ e)
    (he2 : e ≤ h + vb - 4) : encodeExposure h vb e = h + vb - e - 1 := by
  unfold encodeExposure
  rw [u32_eq_of_lt hlt]
  have h5 : 5 ≤ h + vb := by omega
  rw [u32sub_eq hlt (by omega), u32sub_eq (by omega) (by omega)]



/-- Claim C2 is false on the code: when the STANDBY write of
imx662_stop_streaming fails, the function returns that error at once and
the XMSTA stop-bit write is never attempted; the trace of a transport
failing the first write contains only the STANDBY write. -/
theorem C2_counterexample :
    errOf (imx662_stop_streaming (failAt 0 (-5)) st0).2 = some (-5)
  ∧ (imx662_stop_streaming (failAt 0 (-5)) st0).1.trace = [⟨IMX662_STANDBY, 0x01⟩]
  ∧ ⟨IMX662_XMSTA, 0x01⟩ ∉ (imx662_stop_streaming (failAt 0 (-5)) st0).1.trace := by
  decide

/-- Claim C2 amended: the stop sequence writes STANDBY = 1 and, if that
write fails, returns its error WITHOUT attempting the XMSTA stop-bit
write; only when the standby write succeeds is XMSTA = 1 attempted, and
the overall result is then the result of that second write. -/
theorem C2_amended_stop_aborts (tr : Tr) (s : WST) (e : Int) :
    (tr s.idx = some e →
      imx662_stop_streaming tr s =
        (⟨s.idx + 1, s.trace ++ [⟨IMX662_STANDBY, 0x01⟩]⟩, Except.error e))
  ∧ (tr s.idx = none →
      (imx662_stop_streaming tr s).1 =
        ⟨s.idx + 2, s.trace ++ [⟨IMX662_STANDBY, 0x01⟩, ⟨IMX662_XMSTA, 0x01⟩]⟩
      ∧ errOf (imx662_stop_streaming tr s).2 = tr (s.idx + 1)) := by
  constructor
  · intro h
    simp only [imx662_stop_streaming, wr_some tr s IMX662_STANDBY 0x01 e h]
  · intro h
    simp only [imx662_stop_streaming, wr_none tr s IMX662_STANDBY 0x01 h]
    cases h2 : tr (s.idx + 1) <;> simp [wr, h2, errOf, List.append_assoc]

/-- Witness for C2_amended_stop_aborts at a concrete failing transport. -/
theorem C2_amended_stop_aborts_witness :
    failAt 0 (-7) st0.idx = some (-7)
  ∧ imx662_stop_streaming (failAt 0 (-7)) st0 =
      (⟨1, [⟨IMX662_STANDBY, 0x01⟩]⟩, Except.error (-7)) :=
  ⟨by decide, (C2_amended_stop_aborts (failAt 0 (-7)) st0 (-7)).1 (by decide)⟩

/-- Claim C3 is false on the code: a transport failing the first value
write (write index 1, directly after the hold write) makes
imx662_write_buffered_reg return that error with a trace that ends at the
failed value write; the release write REGHOLD = 0 is NOT attempted,
contrary to the claim that the release is attempted even when an
intermediate value write fails. -/
theorem C3_counterexample :
    errOf (imx662_write_buffered_reg (failAt 1 (-5)) st0 IMX662_EXPOSURE 3 0x123456).2
      = some (-5)
  ∧ (imx662_write_buffered_reg (failAt 1 (-5)) st0 IMX662_EXPOSURE 3 0x123456).1.trace
      = [⟨IMX662_REGHOLD, 0x01⟩, ⟨IMX662_EXPOSURE, 0x56⟩]
  ∧ ⟨IMX662_REGHOLD, 0x00⟩ ∉
      (imx662_write_buffered_reg (failAt 1 (-5)) st0 IMX662_EXPOSURE 3 0x123456).1.trace := by
  decide

/-- Claim C3 amended: the held group write issues hold, then the value
bytes LSB-first at consecutive addresses, then release, in that order on
success; it aborts immediately with the triggering error both when the
hold write fails (only the hold write attempted) and when any intermediate
value write fails (trace ends at the failed byte; the release write is not
attempted either). -/
theorem C3_amended_buffered_write (tr : Tr) (s : WST) (a n v : Nat) (e : Int) :
    ((∀ j, j < n + 2 → tr (s.idx + j) = none) →
      imx662_write_buffered_reg tr s a n v =
        (⟨s.idx + n + 2, s.trace ++ heldWrites a v n⟩, Except.ok ()))
  ∧ (tr s.idx = some e →
      imx662_write_buffered_reg tr s a n v =
        (⟨s.idx + 1, s.trace ++ [⟨IMX662_REGHOLD, 0x01⟩]⟩, Except.error e))
  ∧ (∀ j, j < n → tr s.idx = none → (∀ l, l < j → tr (s.idx + 1 + l) = none) →
      tr (s.idx + 1 + j) = some e →
      imx662_write_buffered_reg tr s a n v =
        (⟨s.idx + j + 2, s.trace ++ ⟨IMX662_REGHOLD, 0x01⟩ :: heldBytesFrom a v 0 (j + 1)⟩,
          Except.error e)) :=
  ⟨fun h => wbr_ok tr s a n v h, fun h => wbr_hold_fail tr s a n v e h,
    fun j hj h0 hpre hfail => wbr_byte_fail tr s a n v j e hj h0 hpre hfail⟩

/-- Witness for C3_amended_buffered_write: failing the second value write
of a 3-byte group aborts after that byte, with no release write. -/
theorem C3_amended_buffered_write_witness :
    (1 < 3)
  ∧ imx662_write_buffered_reg (failAt 2 (-5)) st0 IMX662_EXPOSURE 3 0x123456 =
      (⟨3, [⟨IMX662_REGHOLD, 0x01⟩, ⟨IMX662_EXPOSURE, 0x56⟩, ⟨IMX662_EXPOSURE + 1, 0x34⟩]⟩,
        Except.error (-5)) :=
  ⟨by decide,
    (C3_amended_buffered_write (failAt 2 (-5)) st0 IMX662_EXPOSURE 3 0x123456 (-5)).2.2 1
      (by decide) (by decide) (by decide) (by decide)⟩

/-- Claim C9: for every gain value v, imx662_set_gain writes the held
2-byte gain group and then FR_FDG_SEL0, and the FR_FDG_SEL0 value is the
LCG code independently of the v < 0x22 threshold (both branches of the
source conditional produce IMX662_FDG_SEL0_LCG). -/
theorem C9_gain_lcg_independent (v : Nat) :
    fdg_sel0_for_gain v = IMX662_FDG_SEL0_LCG
  ∧ imx662_set_gain okTr st0 v =
      (⟨5, heldWrites IMX662_GAIN v 2 ++ [⟨IMX662_FR_FDG_SEL0, IMX662_FDG_SEL0_LCG⟩]⟩,
        Except.ok ()) := by
  have hf : fdg_sel0_for_gain v = IMX662_FDG_SEL0_LCG := by
    unfold fdg_sel0_for_gain
    split <;> rfl
  refine ⟨hf, ?_⟩
  have h2 : imx662_set_gain okTr st0 v =
      (⟨5, heldWrites IMX662_GAIN v 2 ++ [⟨IMX662_FR_FDG_SEL0, fdg_sel0_for_gain v⟩]⟩,
        Except.ok ()) := rfl
  rw [hf] at h2
  exact h2

/-- Claim C10: the disable branch of imx662_set_stream discards the result
of imx662_stop_streaming and returns 0 (ok) with the flips released, even
for a transport on which the stop sequence fails. -/
theorem C10_stop_error_discarded (tr : Tr) (s : WST) (e : Int)
    (h : errOf (imx662_stop_streaming tr s).2 = some e) :
    (imx662_set_stream_disable tr s).2.1 = Except.ok ()
  ∧ (imx662_set_stream_disable tr s).2.2 = false :=
  ⟨rfl, rfl⟩

/-- Witness for C10_stop_error_discarded: a transport failing the standby
write makes the stop sequence fail, yet set_stream(disable) returns ok. -/
theorem C10_stop_error_discarded_witness :
    errOf (imx662_stop_streaming (failAt 0 (-5)) st0).2 = some (-5)
  ∧ (imx662_set_stream_disable (failAt 0 (-5)) st0).2.1 = Except.ok ()
  ∧ (imx662_set_stream_disable (failAt 0 (-5)) st0).2.2 = false :=
  ⟨by decide, C10_stop_error_discarded (failAt 0 (-5)) st0 (-5) (by decide)⟩

/-- Claim C6 is false on the code: the published blank ranges do not have
lower bound 0; for the catalog mode the hblank lower bound is
hmax - width = 44 and the vblank lower bound is vmax - height = 150. -/
theorem C6_counterexample :
    (hblankRange mode0).minv = mode0.hmax - mode0.width
  ∧ (hblankRange mode0).minv = 44 ∧ (44 : Nat) ≠ 0
  ∧ (vblankRange mode0).minv = mode0.vmax - mode0.height
  ∧ (vblankRange mode0).minv = 150 ∧ (150 : Nat) ≠ 0 := by decide

/-- Claim C6 amended: for every catalog mode the published horizontal
blank range is [hmax - width, HMAX_MAX - width] with default hmax - width
and the vertical blank range is [vmax - height, VMAX_MAX - height] with
default vmax - height (lower bounds equal the defaults and are nonzero,
not 0 as claimed); concretely [44, 63599] and [150, 261043]. -/
theorem C6_amended_blank_ranges : ∀ m ∈ imx662_modes,
    hblankRange m = ⟨44, 63599, 44⟩
  ∧ vblankRange m = ⟨150, 261043, 150⟩
  ∧ (hblankRange m).minv = m.hmax - m.width
  ∧ (hblankRange m).maxv = IMX662_HMAX_MAX - m.width
  ∧ (hblankRange m).defv = m.hmax - m.width
  ∧ (vblankRange m).minv = m.vmax - m.height
  ∧ (vblankRange m).maxv = IMX662_VMAX_MAX - m.height
  ∧ (vblankRange m).defv = m.vmax - m.height
  ∧ (hblankRange m).minv ≠ 0 ∧ (vblankRange m).minv ≠ 0 := by decide

/-- Witness for C6_amended_blank_ranges at the catalog mode. -/
theorem C6_amended_blank_ranges_witness :
    mode0 ∈ imx662_modes
  ∧ hblankRange mode0 = ⟨44, 63599, 44⟩ :=
  ⟨by decide, (C6_amended_blank_ranges mode0 (by decide)).1⟩

/-- Claim C4 is false on the code: at the in-range vertical blank value
150, the exposure range republished by imx662_set_vmax has upper bound
height + vb - 4 = 1246, not height + vb - 2 = 1248 as claimed. -/
theorem C4_counterexample :
    (vblankRange mode0).minv ≤ 150 ∧ 150 ≤ (vblankRange mode0).maxv
  ∧ (exposureRangeOnVblank mode0 150).maxv = 1246
  ∧ mode0.height + 150 - 2 = 1248
  ∧ (exposureRangeOnVblank mode0 150).maxv ≠ mode0.height + 150 - 2 := by decide

/-- Claim C4 amended: for every vertical-blank value vb within the
published vblank range, the exposure range republished on a vblank change
is non-empty with lower bound 1 and upper bound mode.height + vb - 4
(default equal to the upper bound); the range republished on a
format/mode change has lower bound 1 and upper bound mode.vmax - 2, which
equals mode.height + default_vblank - 2. -/
theorem C4_amended_exposure_range : ∀ m ∈ imx662_modes, ∀ vb : Nat,
    (vblankRange m).minv ≤ vb → vb ≤ (vblankRange m).maxv →
    (exposureRangeOnVblank m vb).minv = IMX662_EXPOSURE_MIN
  ∧ (exposureRangeOnVblank m vb).minv ≤ (exposureRangeOnVblank m vb).maxv
  ∧ (exposureRangeOnVblank m vb).maxv = m.height + vb - IMX662_EXPOSURE_OFFSET
  ∧ (exposureRangeOnVblank m vb).defv = (exposureRangeOnVblank m vb).maxv
  ∧ (exposureRangeOnFmt m).minv = IMX662_EXPOSURE_MIN
  ∧ (exposureRangeOnFmt m).maxv = m.vmax - 2
  ∧ (exposureRangeOnFmt m).maxv = m.height + (vblankRange m).defv - 2 := by
  intro m hm vb h1 h2
  simp only [imx662_modes, List.mem_singleton] at hm
  subst hm
  simp only [vblankRange, mode0, IMX662_VMAX_MAX] at h1 h2
  have hv : encodeVmax mode0.height vb = vb + 1100 := by
    show u32 (vb + mode0.height) = vb + 1100
    have hh : mode0.height = 1100 := rfl
    rw [hh]
    exact Nat.mod_eq_of_lt (by unfold pow32; omega)
  refine ⟨rfl, ?_, ?_, rfl, rfl, rfl, ?_⟩
  · show IMX662_EXPOSURE_MIN ≤ encodeVmax mode0.height vb - IMX662_EXPOSURE_OFFSET
    rw [hv]
    unfold IMX662_EXPOSURE_MIN IMX662_EXPOSURE_OFFSET
    omega
  · show encodeVmax mode0.height vb - IMX662_EXPOSURE_OFFSET
      = mode0.height + vb - IMX662_EXPOSURE_OFFSET
    rw [hv]
    have hh : mode0.height = 1100 := rfl
    rw [hh]
    omega
  · decide

/-- Witness for C4_amended_exposure_range at vb = 150. -/
theorem C4_amended_exposure_range_witness :
    ((vblankRange mode0).minv ≤ 150 ∧ 150 ≤ (vblankRange mode0).maxv)
  ∧ (exposureRangeOnVblank mode0 150).maxv
      = mode0.height + 150 - IMX662_EXPOSURE_OFFSET :=
  ⟨⟨by decide, by decide⟩,
    (C4_amended_exposure_range mode0 (by decide) 150 (by decide) (by decide)).2.2.1⟩

/-- Claim C5 is false in its parenthetical scenario: at vb = 0 with the
exposure-range maximum the code actually publishes (height + vb - 4), the
encoded register value is 3, not 1. -/
theorem C5_counterexample :
    encodeExposure mode0.height 0 ((exposureRangeOnVblank mode0 0).maxv) = 3
  ∧ encodeExposure mode0.height 0 ((exposureRangeOnVblank mode0 0).maxv) ≠ 1 := by decide

/-- Claim C5 amended: for every exposure value e in the published range,
the register value written is (mode.height + vb) - e - 1 exactly (no u32
wrap occurs); the encoding is strictly decreasing in e; at the published
range maximum the encoded value is IMX662_EXPOSURE_OFFSET - 1 = 3 (not 1);
the encoded value 1 is obtained at the format-path range maximum
mode.vmax - 2 with the default vertical blank. -/
theorem C5_amended_encode_exposure : ∀ m ∈ imx662_modes, ∀ vb : Nat,
    vb ≤ (vblankRange m).maxv →
    (∀ e, IMX662_EXPOSURE_MIN ≤ e → e ≤ (exposureRangeOnVblank m vb).maxv →
        encodeExposure m.height vb e = m.height + vb - e - 1)
  ∧ (∀ e1 e2, IMX662_EXPOSURE_MIN ≤ e1 → e1 < e2 →
        e2 ≤ (exposureRangeOnVblank m vb).maxv →
        encodeExposure m.height vb e2 < encodeExposure m.height vb e1)
  ∧ encodeExposure m.height vb ((exposureRangeOnVblank m vb).maxv)
      = IMX662_EXPOSURE_OFFSET - 1
  ∧ encodeExposure m.height ((vblankRange m).defv) ((exposureRangeOnFmt m).maxv) = 1 := by
  intro m hm vb hvb
  simp only [imx662_modes, List.mem_singleton] at hm
  subst hm
  simp only [vblankRange, mode0, IMX662_VMAX_MAX] at hvb
  have hh : mode0.height = 1100 := rfl
  have hlt : mode0.height + vb < pow32 := by
    rw [hh]
    unfold pow32
    omega
  have hmax : (exposureRangeOnVblank mode0 vb).maxv = mode0.height + vb - 4 := by
    show u32 (vb + mode0.height) - IMX662_EXPOSURE_OFFSET = mode0.height + vb - 4
    rw [hh]
    unfold u32
    rw [Nat.mod_eq_of_lt (show vb + 1100 < pow32 by unfold pow32; omega)]
    unfold IMX662_EXPOSURE_OFFSET
    omega
  refine ⟨?_, ?_, ?_, by decide⟩
  · intro e he1 he2
    rw [hmax] at he2
    exact encodeExposure_eq mode0.height vb e hlt he1 he2
  · intro e1 e2 he1 hlt12 he2
    rw [hmax] at he2
    have he1n : 1 ≤ e1 := he1
    rw [encodeExposure_eq mode0.height vb e1 hlt he1n (by omega),
        encodeExposure_eq mode0.height vb e2 hlt (by omega) he2]
    rw [hh] at he2 ⊢
    omega
  · rw [hmax]
    rw [encodeExposure_eq mode0.height vb (mode0.height + vb - 4) hlt
      (by rw [hh]; omega) (le_refl _)]
    rw [hh]
    unfold IMX662_EXPOSURE_OFFSET
    omega

/-- Witness for C5_amended_encode_exposure at vb = 150, e = 1000. -/
theorem C5_amended_encode_exposure_witness :
    (150 ≤ (vblankRange mode0).maxv)
  ∧ encodeExposure mode0.height 150 1000 = mode0.height + 150 - 1000 - 1
  ∧ encodeExposure mode0.height 150 ((exposureRangeOnVblank mode0 150).maxv)
      = IMX662_EXPOSURE_OFFSET - 1 :=
  ⟨by decide,
    (C5_amended_encode_exposure mode0 (by decide) 150 (by decide)).1 1000
      (by decide) (by decide),
    (C5_amended_encode_exposure mode0 (by decide) 150 (by decide)).2.2.1⟩

/-- Claim C8: every exposure range the driver publishes (format/mode
selection and probe publish [1, vmax - 2]; a vblank change publishes
[1, (height + vb) - 4]) lies within [1, mode.vmax + vblank - 4], the
claimed invariant bound, for every vblank value in the published vblank
range. -/
theorem C8_exposure_invariant : ∀ m ∈ imx662_modes,
    (exposureRangeOnFmt m).minv = IMX662_EXPOSURE_MIN
  ∧ (exposureRangeOnFmt m).maxv ≤ m.vmax + (vblankRange m).defv - IMX662_EXPOSURE_OFFSET
  ∧ ∀ vb, (vblankRange m).minv ≤ vb → vb ≤ (vblankRange m).maxv →
      (exposureRangeOnVblank m vb).minv = IMX662_EXPOSURE_MIN
    ∧ (exposureRangeOnVblank m vb).maxv ≤ m.vmax + vb - IMX662_EXPOSURE_OFFSET := by
  intro m hm
  simp only [imx662_modes, List.mem_singleton] at hm
  subst hm
  refine ⟨rfl, by decide, ?_⟩
  intro vb h1 h2
  simp only [vblankRange, mode0, IMX662_VMAX_MAX] at h1 h2
  have hmax : (exposureRangeOnVblank mode0 vb).maxv = 1100 + vb - 4 := by
    show u32 (vb + mode0.height) - IMX662_EXPOSURE_OFFSET = 1100 + vb - 4
    have hh : mode0.height = 1100 := rfl
    rw [hh]
    unfold u32
    rw [Nat.mod_eq_of_lt (show vb + 1100 < pow32 by unfold pow32; omega)]
    unfold IMX662_EXPOSURE_OFFSET
    omega
  refine ⟨rfl, ?_⟩
  rw [hmax]
  have hv : mode0.vmax = 1250 := rfl
  rw [hv]
  unfold IMX662_EXPOSURE_OFFSET
  omega

/-- Witness for C8_exposure_invariant at vb = 150. -/
theorem C8_exposure_invariant_witness :
    ((vblankRange mode0).minv ≤ 150 ∧ 150 ≤ (vblankRange mode0).maxv)
  ∧ ((exposureRangeOnVblank mode0 150).minv = IMX662_EXPOSURE_MIN
     ∧ (exposureRangeOnVblank mode0 150).maxv
         ≤ mode0.vmax + 150 - IMX662_EXPOSURE_OFFSET) :=
  ⟨⟨by decide, by decide⟩,
    (C8_exposure_invariant mode0 (by decide)).2.2 150 (by decide) (by decide)⟩

/-- A driver state that is streaming, with stale published ranges, used to
show that imx662_set_fmt does not reject format changes mid-stream. -/
def stStreaming : DrvState :=
  { current_mode := mode0
    code := MbusCode.SRGGB10
    bpp := 10
    streaming := true
    hblankR := ⟨0, 0, 0⟩
    vblankR := ⟨0, 0, 0⟩
    exposureR := ⟨0, 0, 0⟩ }

/-- Claim C7 is false on the code: imx662_set_fmt contains no streaming
check, so a set-format call made while streaming succeeds (returns 0) and
changes the pixel format, bit depth and published control ranges. -/
theorem C7_counterexample :
    stStreaming.streaming = true
  ∧ isOk (imx662_set_fmt stStreaming imx662_colour_formats 1936 1100 MbusCode.SRGGB12).2
      = true
  ∧ (imx662_set_fmt stStreaming imx662_colour_formats 1936 1100 MbusCode.SRGGB12).1.code
      = MbusCode.SRGGB12
  ∧ (imx662_set_fmt stStreaming imx662_colour_formats 1936 1100 MbusCode.SRGGB12).1.bpp = 12
  ∧ (imx662_set_fmt stStreaming imx662_colour_formats 1936 1100 MbusCode.SRGGB12).1.exposureR
      ≠ stStreaming.exposureR
  ∧ (imx662_set_fmt stStreaming imx662_colour_formats 1936 1100 MbusCode.SRGGB12).1.exposureR
      = exposureRangeOnFmt mode0
  ∧ (imx662_set_fmt stStreaming imx662_colour_formats 1936 1100 MbusCode.SRGGB12).1.streaming
      = true := by decide

/-- Claim C7 amended: imx662_set_fmt performs no streaming-state check;
for every driver state (streaming or not) it returns success, selects the
nearest catalog mode and republishes the hblank/vblank/exposure ranges,
leaving the streaming flag as it was. -/
theorem C7_amended_set_fmt_unconditional (st : DrvState) (formats : List PixFmt)
    (w h : Nat) (c : MbusCode) :
    isOk (imx662_set_fmt st formats w h c).2 = true
  ∧ (imx662_set_fmt st formats w h c).1.streaming = st.streaming
  ∧ (imx662_set_fmt st formats w h c).1.current_mode
      = v4l2_find_nearest_size imx662_modes w h st.current_mode
  ∧ (imx662_set_fmt st formats w h c).1.hblankR
      = hblankRange (v4l2_find_nearest_size imx662_modes w h st.current_mode)
  ∧ (imx662_set_fmt st formats w h c).1.vblankR
      = vblankRange (v4l2_find_nearest_size imx662_modes w h st.current_mode)
  ∧ (imx662_set_fmt st formats w h c).1.exposureR
      = exposureRangeOnFmt (v4l2_find_nearest_size imx662_modes w h st.current_mode) :=
  ⟨rfl, rfl, rfl, rfl, rfl, rfl⟩

set_option maxRecDepth 8000

/-- Claim C1 is false in its failure clause: a transport failing write
index 151 (the hold write of the nested exposure update performed inside
the vertical-blank control re-application by imx662_set_vmax) fails a
write that start_streaming attempts, yet the start sequence continues (10
further writes are attempted), returns success, and the driver ends up
streaming: the failed write's error is discarded, not returned. -/
theorem C1_counterexample :
    isOk (imx662_set_stream_enable (failAt 151 (-5)) st0 cfg0).2.1 = true
  ∧ (imx662_set_stream_enable (failAt 151 (-5)) st0 cfg0).2.2 = true
  ∧ (imx662_set_stream_enable (failAt 151 (-5)) st0 cfg0).1.idx = 161
  ∧ 151 < 161 := by decide

/-- Claim C1 amended: on a fault-free transport the start sequence issues
exactly the claimed write order (global blob, clock select, ADBIT/MDBIT,
mode blob, lane mode/rate, the control values, standby clear, master-start
clear — 165 writes) and the driver ends up streaming.  A failing write
aborts the remaining writes with that write's error and leaves the driver
not streaming, EXCEPT inside the vblank control re-application
(imx662_set_vmax, write indices 146-155 of this configuration): a failure
in the buffered VMAX group (146-150) still returns that error but is
followed by the 5 writes of the nested exposure update first, and a
failure in the nested exposure update itself (151-155) is discarded
entirely — the sequence runs to the end and reports success. -/
theorem C1_amended_start_sequence :
    ((imx662_start_streaming okTr st0 cfg0).1.trace = expectedStartTrace cfg0
      ∧ isOk (imx662_start_streaming okTr st0 cfg0).2 = true
      ∧ (imx662_set_stream_enable okTr st0 cfg0).2.2 = true)
  ∧ (∀ n, n < 165 → (n < 146 ∨ 155 < n) →
      errOf (imx662_set_stream_enable (failAt n (-5)) st0 cfg0).2.1 = some (-5)
      ∧ (imx662_set_stream_enable (failAt n (-5)) st0 cfg0).1.idx = n + 1
      ∧ (imx662_set_stream_enable (failAt n (-5)) st0 cfg0).2.2 = false)
  ∧ (∀ n, n ≤ 150 → 146 ≤ n →
      errOf (imx662_set_stream_enable (failAt n (-5)) st0 cfg0).2.1 = some (-5)
      ∧ (imx662_set_stream_enable (failAt n (-5)) st0 cfg0).1.idx = n + 6
      ∧ (imx662_set_stream_enable (failAt n (-5)) st0 cfg0).2.2 = false)
  ∧ (∀ n, n ≤ 155 → 151 ≤ n →
      isOk (imx662_set_stream_enable (failAt n (-5)) st0 cfg0).2.1 = true
      ∧ (imx662_set_stream_enable (failAt n (-5)) st0 cfg0).1.idx = n + 10
      ∧ (imx662_set_stream_enable (failAt n (-5)) st0 cfg0).2.2 = true) := by
  decide

/-- Witness for C1_amended_start_sequence at n = 2, the spec scenario of a
transport failing the 3rd write: the error is returned, exactly 3 writes
were attempted, and the driver is not streaming. -/
theorem C1_amended_start_sequence_witness :
    (2 < 165)
  ∧ (errOf (imx662_set_stream_enable (failAt 2 (-5)) st0 cfg0).2.1 = some (-5)
     ∧ (imx662_set_stream_enable (failAt 2 (-5)) st0 cfg0).1.idx = 2 + 1
     ∧ (imx662_set_stream_enable (failAt 2 (-5)) st0 cfg0).2.2 = false) :=
  ⟨by decide, C1_amended_start_sequence.2.1 2 (by decide) (Or.inl (by decide))⟩

end IMX662
